import Mathlib

/-!
# Verification of the Harbor AI hub orchestrator dispatch path

Shallow embedding of the cross-account Bedrock agent invocation code
(`get_cross_account_bedrock_client`, `invoke_bedrock_agent`, the configuration
constants), of the frontend upload/chat timeout handling (`handleFileUpload` in
`page.tsx`), and of the presigned-upload route (`route.ts`), together with
theorems settling the specification claims about them.

External AWS calls (STS `assume_role`, `get_caller_identity`, Bedrock
`invoke_agent`) are modelled as an oracle record `AwsEnv`; every embedded
function additionally returns the trace of AWS calls it performed, so that
"calls the broker exactly once" and "invokes with exactly this client" are
expressible.
-/

/-- Configuration constant `LOCAL_ACCOUNT_ID` (part_000, line 312). -/
def LOCAL_ACCOUNT_ID : String := "843074507558"

/-- Configuration constant `CROSS_ACCOUNT_ROLE_ARN` (part_000, line 313).
A single fixed ARN, not computed from any target account id. -/
def CROSS_ACCOUNT_ROLE_ARN : String :=
  "arn:aws:iam::152864141302:role/cmcCrossAccountBedrockInvokeRole"

/-- Configuration constant `CROSS_ACCOUNT_EXTERNAL_ID` (part_000, line 314). -/
def CROSS_ACCOUNT_EXTERNAL_ID : String := "bedrock-cross-account-2024"

/-- A temporary credential set as returned by STS `assume_role`
(`assumed['Credentials']`). -/
structure Credentials where
  AccessKeyId : String
  SecretAccessKey : String
  SessionToken : String
deriving Repr, DecidableEq

/-- The keyword arguments of one `sts.assume_role(...)` call
(part_000, lines 330-334). -/
structure AssumeRoleRequest where
  RoleArn : String
  RoleSessionName : String
  ExternalId : String
deriving Repr, DecidableEq

/-- A bedrock-agent-runtime client value.  `localClient` is the module-level
`bedrock_client` (part_000, line 317); `sessionClient creds` is
`boto3.Session(**creds).client('bedrock-agent-runtime')`
(part_000, lines 339-344 and 353). -/
inductive BedrockClient where
  | localClient : BedrockClient
  | sessionClient (creds : Credentials) : BedrockClient
deriving Repr, DecidableEq

/-- The credentials a client is bound to (`none` for the ambient local client). -/
def BedrockClient.boundCreds : BedrockClient → Option Credentials
  | .localClient => none
  | .sessionClient creds => some creds

/-- Errors a dispatch can surface.  `exception msg` models
`raise Exception(msg)`; `unicodeDecodeError` models a failing
`bytes.decode("utf-8")`; `clientError code` models a botocore `ClientError`
raised by an AWS call.  The constructors `authError` and `invocationError` are
modelled from the spec's error taxonomy (`AuthError(kind)`,
`InvocationError(kind)` carrying a message); the embedded code never
constructs them — they exist so that statements can compare the code's actual
errors against the descriptors the spec names. -/
inductive PyErr where
  | exception (msg : String) : PyErr
  | unicodeDecodeError : PyErr
  | clientError (code : String) : PyErr
  | authError (kind : String) : PyErr
  | invocationError (kind : String) (msg : String) : PyErr
deriving Repr, DecidableEq

/-- If a dispatch result is the spec's `InvocationError(kind, msg)` descriptor,
return its kind; otherwise `none`. -/
def resultInvocationKind : Except PyErr String → Option String
  | .error (.invocationError kind _) => some kind
  | _ => none

/-- One event of the streamed `completion` sequence.  `chunkBytes bs` is an
event with a `"chunk"` entry carrying `"bytes"`; `other` is any event skipped
by the guard `"chunk" in event and "bytes" in event["chunk"]`
(part_000, line 388). -/
inductive StreamEvent where
  | chunkBytes (bytes : List Nat) : StreamEvent
  | other : StreamEvent
deriving Repr, DecidableEq

/-- The keyword arguments of one `bedrock.invoke_agent(...)` call
(part_000, lines 378-383).  `agentId` and `agentAliasId` are passed through
from `dict.get`, hence optional. -/
structure InvokeParams where
  agentId : Option String
  agentAliasId : Option String
  sessionId : String
  inputText : String
deriving Repr, DecidableEq

/-- Oracle for the external AWS services the code calls. -/
structure AwsEnv where
  /-- `sts.assume_role(...)`: may fail (e.g. access denied) or return
  temporary credentials. -/
  assumeRole : AssumeRoleRequest → Except PyErr Credentials
  /-- `session.client('sts').get_caller_identity()['Account']` for a session
  holding the given credentials. -/
  callerIdentityAccount : Credentials → String
  /-- `client.invoke_agent(...)`: may fail or return the streamed
  `completion` event sequence. -/
  invokeAgent : BedrockClient → InvokeParams → Except PyErr (List StreamEvent)

/-- Python truthiness of an optional string (`if account_id`, `if not alias_id`):
`None` and `""` are falsy. -/
def truthy : Option String → Bool
  | none => false
  | some s => s != ""

/-- Python `f"...{x}"` rendering of an optional string: `None` prints as
`"None"`. -/
def pyStr : Option String → String
  | none => "None"
  | some s => s

/-- Whether a byte is a UTF-8 continuation byte (`0x80..0xBF`). -/
def isCont (b : Nat) : Bool := 0x80 ≤ b && b < 0xC0

/-- Strict UTF-8 decoding of a byte list, as performed by Python's
`bytes.decode("utf-8")`: rejects stray continuation bytes, overlong
encodings, surrogates, and code points above `0x10FFFF`. -/
def utf8Decode : List Nat → Option (List Char)
  | [] => some []
  | b :: rest =>
    if b < 0x80 then
      (utf8Decode rest).map (fun cs => Char.ofNat b :: cs)
    else if b < 0xC2 then
      none
    else if b < 0xE0 then
      match rest with
      | b1 :: rest1 =>
        if isCont b1 then
          (utf8Decode rest1).map (fun cs => Char.ofNat ((b - 0xC0) * 0x40 + (b1 - 0x80)) :: cs)
        else none
      | [] => none
    else if b < 0xF0 then
      match rest with
      | b1 :: b2 :: rest2 =>
        if isCont b1 && isCont b2 then
          let cp := (b - 0xE0) * 0x1000 + (b1 - 0x80) * 0x40 + (b2 - 0x80)
          if cp < 0x800 || (0xD800 ≤ cp && cp < 0xE000) then none
          else (utf8Decode rest2).map (fun cs => Char.ofNat cp :: cs)
        else none
      | _ => none
    else if b < 0xF5 then
      match rest with
      | b1 :: b2 :: b3 :: rest3 =>
        if isCont b1 && isCont b2 && isCont b3 then
          let cp := (b - 0xF0) * 0x40000 + (b1 - 0x80) * 0x1000 +
                    (b2 - 0x80) * 0x40 + (b3 - 0x80)
          if cp < 0x10000 || 0x10FFFF < cp then none
          else (utf8Decode rest3).map (fun cs => Char.ofNat cp :: cs)
        else none
      | _ => none
    else none

/-- `bytes.decode("utf-8")` producing a string, `none` on failure. -/
def decodeUtf8 (bs : List Nat) : Option String :=
  (utf8Decode bs).map (fun cs => String.mk cs)

/-- The UTF-8 bytes of an ASCII string (used to build concrete chunk inputs). -/
def strBytes (s : String) : List Nat := s.data.map Char.toNat

/-- The registry record fields read by `invoke_bedrock_agent` via `dict.get`
(part_000, lines 362-364); `dict.get` yields `None` for an absent key. -/
structure AgentRecord where
  agent_id : Option String
  alias_id : Option String
  account_id : Option String
deriving Repr, DecidableEq

/-- The trace of AWS calls one dispatch performed. -/
structure DispatchTrace where
  assumeRoleCalls : List AssumeRoleRequest
  invokeCalls : List (BedrockClient × InvokeParams)
deriving Repr, DecidableEq

/-- The `assume_role` request built for a target account
(part_000, lines 330-334): constant role ARN, session name
`f"HubSession-{account_id}"`, constant external id. -/
def brokerRequest (account_id : String) : AssumeRoleRequest :=
  { RoleArn := CROSS_ACCOUNT_ROLE_ARN
    RoleSessionName := "HubSession-" ++ account_id
    ExternalId := CROSS_ACCOUNT_EXTERNAL_ID }

/-- `get_cross_account_bedrock_client(account_id)` (part_000, lines 323-353),
with its trace of `assume_role` calls.  Assumes the role once, builds an
isolated session from exactly the returned credentials, verifies the session's
caller identity, and raises `Exception(f"Expected account {account_id}, got
{identity['Account']}")` on mismatch. -/
def get_cross_account_bedrock_client (env : AwsEnv) (account_id : String) :
    Except PyErr BedrockClient × List AssumeRoleRequest :=
  let req := brokerRequest account_id
  match env.assumeRole req with
  | .error e => (.error e, [req])
  | .ok creds =>
    let identityAccount := env.callerIdentityAccount creds
    if identityAccount != account_id then
      (.error (.exception ("Expected account " ++ account_id ++ ", got " ++ identityAccount)),
       [req])
    else
      (.ok (BedrockClient.sessionClient creds), [req])

/-- The client-selection branch of `invoke_bedrock_agent`
(part_000, lines 370-375): `if account_id and account_id != LOCAL_ACCOUNT_ID`
take the cross-account client, else the module-level `bedrock_client`. -/
def selectClient (env : AwsEnv) (account_id : Option String) :
    Except PyErr BedrockClient × List AssumeRoleRequest :=
  match account_id with
  | some a =>
    if a != "" && a != LOCAL_ACCOUNT_ID then
      get_cross_account_bedrock_client env a
    else
      (.ok BedrockClient.localClient, [])
  | none => (.ok BedrockClient.localClient, [])

/-- The chunk-accumulation loop of `invoke_bedrock_agent`
(part_000, lines 386-389): events without chunk bytes are skipped, chunk
bytes are decoded as UTF-8 and appended; a decode failure raises
`UnicodeDecodeError`, aborting the loop. -/
def processCompletion : List StreamEvent → String → Except PyErr String
  | [], result => .ok result
  | .other :: rest, result => processCompletion rest result
  | .chunkBytes bs :: rest, result =>
    match decodeUtf8 bs with
    | none => .error .unicodeDecodeError
    | some s => processCompletion rest (result ++ s)

/-- `invoke_bedrock_agent(agent, user_request, session_id)`
(part_000, lines 359-391), with its trace of AWS calls.  Returns the plain
string `f"Error: Missing alias_id for agent {agent_id}"` when `alias_id` is
falsy, selects the client, invokes the agent with that same client, folds the
streamed chunks into `result`, and returns
`result if result else "No response from agent."`. -/
def invoke_bedrock_agent (env : AwsEnv) (agent : AgentRecord)
    (user_request : String) (session_id : String) :
    Except PyErr String × DispatchTrace :=
  let agent_id := agent.agent_id
  let alias_id := agent.alias_id
  let account_id := agent.account_id
  if !truthy alias_id then
    (.ok ("Error: Missing alias_id for agent " ++ pyStr agent_id), ⟨[], []⟩)
  else
    match selectClient env account_id with
    | (.error e, calls) => (.error e, ⟨calls, []⟩)
    | (.ok bedrock, calls) =>
      let params : InvokeParams :=
        { agentId := agent_id, agentAliasId := alias_id
          sessionId := session_id, inputText := user_request }
      match env.invokeAgent bedrock params with
      | .error e => (.error e, ⟨calls, [(bedrock, params)]⟩)
      | .ok completion =>
        match processCompletion completion "" with
        | .error e => (.error e, ⟨calls, [(bedrock, params)]⟩)
        | .ok result =>
          (.ok (if result = "" then "No response from agent." else result),
           ⟨calls, [(bedrock, params)]⟩)

/-- Modelled from the spec: the concatenation, in arrival order, of each
chunk's decoded fragment; `none` when some chunk fails to decode.  Used to
compare the code's reassembly against the spec's description. -/
def specDecodedConcat : List StreamEvent → Option String
  | [] => some ""
  | .other :: rest => specDecodedConcat rest
  | .chunkBytes bs :: rest =>
    match decodeUtf8 bs with
    | none => none
    | some s => (specDecodedConcat rest).map (fun t => s ++ t)

/-- The client-side ceiling on the hub call after an upload:
`setTimeout(() => controller.abort(), 120000)` (page.tsx, line 133). -/
def HUB_TIMEOUT_MS : Nat := 120000

/-- The JSON body of a hub orchestrator response as read by the frontend
(`data.response`, `data.error`); absent fields are `none`. -/
structure HubBody where
  response : Option String
  error : Option String
deriving Repr, DecidableEq

/-- One chat message appended via `setMessages` (page.tsx). -/
structure ChatMessage where
  role : String
  content : String
deriving Repr, DecidableEq

/-- The outcome of the post-upload hub fetch guarded by the AbortController
(page.tsx, lines 132-147): either the response arrived before the 120000 ms
timer fired (with its `ok` flag, HTTP status, raw text and parsed JSON body),
or the timer fired, `controller.abort()` ran, and the fetch rejected with an
`AbortError`. -/
inductive HubFetchOutcome where
  | completed (ok : Bool) (status : Nat) (rawText : String) (body : HubBody) : HubFetchOutcome
  | timedOut : HubFetchOutcome
deriving Repr, DecidableEq

/-- JavaScript `a || b` over an optional string field: `undefined` and `""`
are falsy. -/
def jsOr (a : Option String) (b : String) : String :=
  match a with
  | none => b
  | some s => if s = "" then b else s

/-- The assistant message shown when the hub responds with HTTP 504
(page.tsx, lines 153-158). -/
def stillProcessingMessage : String :=
  "⏳ Document uploaded successfully! Processing is taking longer than expected. The document is being processed in the background - please try asking about it in a moment, or check CloudWatch logs for the result."

/-- What the file-upload flow appends to the chat and whether the in-flight
hub call was aborted. -/
structure HubCallResult where
  message : ChatMessage
  aborted : Bool
deriving Repr, DecidableEq

/-- The hub-call section of `handleFileUpload` (page.tsx, lines 131-175) as a
function of the fetch outcome.  On `AbortError` the inner catch rethrows
`Error('Request timed out - document processing is taking too long')`, which
the outer catch appends as a `role: 'error'` message; status 504 yields the
`stillProcessingMessage` assistant message; any other non-ok status throws
`Error(`API error: ${status} - ${text}`)`; an ok response shows
`data.response || data.error || 'Processing complete but no response data'`. -/
def handleHubCall : HubFetchOutcome → HubCallResult
  | .timedOut =>
    { message := { role := "error"
                   content := "Request timed out - document processing is taking too long" }
      aborted := true }
  | .completed ok status rawText body =>
    if !ok then
      if status = 504 then
        { message := { role := "assistant", content := stillProcessingMessage }
          aborted := false }
      else
        { message := { role := "error"
                       content := "API error: " ++ toString status ++ " - " ++ rawText }
          aborted := false }
    else
      { message := { role := "assistant"
                     content := jsOr body.response (jsOr body.error "Processing complete but no response data") }
        aborted := false }

/-- The JSON body of a POST to the upload-url route (route.ts, line 14). -/
structure UploadUrlRequest where
  filename : String
  contentType : String
deriving Repr, DecidableEq

/-- The parameters the route hands to the presigner: the `PutObjectCommand`
fields plus `expiresIn` (route.ts, lines 17-23).  `getSignedUrl` itself is the
external AWS signer applied to exactly these parameters. -/
structure PresignParams where
  bucket : String
  key : String
  contentType : String
  expiresIn : Nat
deriving Repr, DecidableEq

/-- The JSON the upload-url route returns: the presign parameters standing for
the signed `uploadUrl`, and the `s3Path` string (route.ts, lines 25-28). -/
structure UploadUrlResponse where
  presign : PresignParams
  s3Path : String
deriving Repr, DecidableEq

/-- The `POST` handler of route.ts (lines 13-29): builds the key
`` `sourceDocs/${filename}` `` with no validation of the client-supplied
filename, presigns a PUT with `expiresIn: 1500`, and returns
`` `s3://${bucket}/${key}` `` as `s3Path`. -/
def uploadUrlPOST (bucket : String) (req : UploadUrlRequest) : UploadUrlResponse :=
  let key := "sourceDocs/" ++ req.filename
  { presign := { bucket := bucket, key := key
                 contentType := req.contentType, expiresIn := 1500 }
    s3Path := "s3://" ++ bucket ++ "/" ++ key }

/-- Fixture credentials returned by the test oracles. -/
def testCreds : Credentials :=
  { AccessKeyId := "ASIATESTKEY", SecretAccessKey := "testsecret", SessionToken := "testtoken" }

/-- Oracle in which role assumption succeeds, the assumed identity resolves to
the target account 152864141302, and the agent streams the single chunk
"Hello". -/
def crossEnv : AwsEnv :=
  { assumeRole := fun _ => .ok testCreds
    callerIdentityAccount := fun _ => "152864141302"
    invokeAgent := fun _ _ => .ok [StreamEvent.chunkBytes (strBytes "Hello")] }

/-- Oracle in which role assumption succeeds but the assumed identity resolves
to the LOCAL account (ambient credentials leaking through). -/
def leakEnv : AwsEnv :=
  { assumeRole := fun _ => .ok testCreds
    callerIdentityAccount := fun _ => LOCAL_ACCOUNT_ID
    invokeAgent := fun _ _ => .ok [] }

/-- Oracle in which the agent streams no chunks at all. -/
def emptyStreamEnv : AwsEnv :=
  { assumeRole := fun _ => .ok testCreds
    callerIdentityAccount := fun _ => "152864141302"
    invokeAgent := fun _ _ => .ok [] }

/-- Oracle in which the agent streams one chunk whose bytes decode to the
empty string. -/
def blankChunkEnv : AwsEnv :=
  { assumeRole := fun _ => .ok testCreds
    callerIdentityAccount := fun _ => "152864141302"
    invokeAgent := fun _ _ => .ok [StreamEvent.chunkBytes []] }

/-- Oracle in which the agent streams one chunk whose bytes are not valid
UTF-8 (a lone 0xFF byte). -/
def badBytesEnv : AwsEnv :=
  { assumeRole := fun _ => .ok testCreds
    callerIdentityAccount := fun _ => "152864141302"
    invokeAgent := fun _ _ => .ok [StreamEvent.chunkBytes [255]] }

/-- Oracle in which the agent streams the chunks "Hel", "lo, ", "world". -/
def helloEnv : AwsEnv :=
  { assumeRole := fun _ => .ok testCreds
    callerIdentityAccount := fun _ => "152864141302"
    invokeAgent := fun _ _ =>
      .ok [StreamEvent.chunkBytes (strBytes "Hel"),
           StreamEvent.chunkBytes (strBytes "lo, "),
           StreamEvent.chunkBytes (strBytes "world")] }

/-- The documented cross-account registry record (part_000, lines 276-287). -/
def crowleyAgent : AgentRecord :=
  { agent_id := some "PEGHWIVI5Y", alias_id := some "IO1GTTHP0M"
    account_id := some "152864141302" }

/-- A registry record with no `account_id` (local invocation). -/
def localAgent : AgentRecord :=
  { agent_id := some "LOCALAGENT", alias_id := some "LOCALALIAS", account_id := none }

/-- A registry record carrying an empty `alias_id` (the malformed shape the
dispatcher must reject). -/
def emptyAliasAgent : AgentRecord :=
  { agent_id := some "PEGHWIVI5Y", alias_id := some "", account_id := some "152864141302" }

deriving instance DecidableEq for Except

/-- The broker performs exactly one `assume_role` call per acquisition,
whatever the oracle answers. -/
lemma broker_trace (env : AwsEnv) (a : String) :
    (get_cross_account_bedrock_client env a).2 = [brokerRequest a] := by
  simp only [get_cross_account_bedrock_client]
  cases env.assumeRole (brokerRequest a) with
  | error e => rfl
  | ok creds =>
    by_cases h : (env.callerIdentityAccount creds != a) = true <;> simp [h]

/-- A client the broker returns is the session client built from exactly the
credentials its single `assume_role` call produced. -/
lemma broker_result (env : AwsEnv) (a : String) (c : BedrockClient)
    (h : (get_cross_account_bedrock_client env a).1 = .ok c) :
    ∃ creds, env.assumeRole (brokerRequest a) = .ok creds ∧
      c = BedrockClient.sessionClient creds := by
  simp only [get_cross_account_bedrock_client] at h
  cases hA : env.assumeRole (brokerRequest a) with
  | error e => rw [hA] at h; simp at h
  | ok creds =>
    rw [hA] at h
    by_cases hid : (env.callerIdentityAccount creds != a) = true
    · simp [hid] at h
    · simp [hid] at h
      exact ⟨creds, rfl, h.symm⟩

/-- When the target account is truthy and differs from the local account, the
client-selection branch defers to the broker. -/
lemma selectClient_cross (env : AwsEnv) (a : String) (hne : a ≠ "")
    (hnl : a ≠ LOCAL_ACCOUNT_ID) :
    selectClient env (some a) = get_cross_account_bedrock_client env a := by
  simp [selectClient, hne, hnl]

/-- When the target account is absent or equals the local account, the
client-selection branch yields the local client and no broker call. -/
lemma selectClient_local (env : AwsEnv) (acc : Option String)
    (h : acc = none ∨ acc = some LOCAL_ACCOUNT_ID) :
    selectClient env acc = (.ok BedrockClient.localClient, []) := by
  rcases h with h | h <;> subst h <;> simp [selectClient]

/-- The chunk loop computes the spec's decoded concatenation: it returns the
accumulated prefix followed by the concatenation of all decoded fragments, or
`UnicodeDecodeError` when some fragment fails to decode. -/
lemma processCompletion_spec (events : List StreamEvent) : ∀ acc : String,
    processCompletion events acc =
      match specDecodedConcat events with
      | none => .error PyErr.unicodeDecodeError
      | some s => .ok (acc ++ s) := by
  induction events with
  | nil => intro acc; simp [processCompletion, specDecodedConcat]
  | cons e rest ih =>
    intro acc
    cases e with
    | other => simpa [processCompletion, specDecodedConcat] using ih acc
    | chunkBytes bs =>
      cases h : decodeUtf8 bs with
      | none => simp [processCompletion, specDecodedConcat, h]
      | some s =>
        simp only [processCompletion, specDecodedConcat, h, ih (acc ++ s)]
        cases hr : specDecodedConcat rest with
        | none => rfl
        | some t => simp [String.append_assoc]

/-- The dispatch's AWS trace: its `assume_role` calls are exactly those of the
client selection, and every `invoke_agent` call uses exactly the client the
selection produced. -/
lemma dispatch_trace (env : AwsEnv) (agent : AgentRecord) (user sid : String)
    (halias : truthy agent.alias_id = true) :
    (invoke_bedrock_agent env agent user sid).2.assumeRoleCalls =
      (selectClient env agent.account_id).2 ∧
    ∀ cp ∈ (invoke_bedrock_agent env agent user sid).2.invokeCalls,
      (selectClient env agent.account_id).1 = .ok cp.1 := by
  rcases hsel : selectClient env agent.account_id with ⟨res, calls⟩
  cases res with
  | error e => simp [invoke_bedrock_agent, halias, hsel]
  | ok c =>
    cases hinv : env.invokeAgent c
        { agentId := agent.agent_id, agentAliasId := agent.alias_id
          sessionId := sid, inputText := user } with
    | error e => simp [invoke_bedrock_agent, halias, hsel, hinv]
    | ok completion =>
      cases hpc : processCompletion completion "" with
      | error e => simp [invoke_bedrock_agent, halias, hsel, hinv, hpc]
      | ok r => simp [invoke_bedrock_agent, halias, hsel, hinv, hpc]

/-- C1: a dispatch whose record's `account_id` is present, non-empty (truthy)
and different from the local account identifier calls the Credential Broker
exactly once and performs every agent invocation with exactly the client the
broker returned (never the ambient local client); a dispatch whose record's
`account_id` is absent or equals the local account identifier uses the
pre-configured local client and never calls the Credential Broker. -/
theorem dispatch_routing (env : AwsEnv) (agent : AgentRecord) (user sid : String)
    (halias : truthy agent.alias_id = true) :
    (∀ a, agent.account_id = some a → a ≠ "" → a ≠ LOCAL_ACCOUNT_ID →
      ((invoke_bedrock_agent env agent user sid).2.assumeRoleCalls = [brokerRequest a] ∧
       ∀ cp ∈ (invoke_bedrock_agent env agent user sid).2.invokeCalls,
         (get_cross_account_bedrock_client env a).1 = .ok cp.1 ∧
           cp.1 ≠ BedrockClient.localClient)) ∧
    ((agent.account_id = none ∨ agent.account_id = some LOCAL_ACCOUNT_ID) →
      ((invoke_bedrock_agent env agent user sid).2.assumeRoleCalls = [] ∧
       ∀ cp ∈ (invoke_bedrock_agent env agent user sid).2.invokeCalls,
         cp.1 = BedrockClient.localClient)) := by
  obtain ⟨htr, hcl⟩ := dispatch_trace env agent user sid halias
  constructor
  · intro a ha hne hnl
    rw [ha, selectClient_cross env a hne hnl] at htr hcl
    refine ⟨by rw [htr, broker_trace], ?_⟩
    intro cp hcp
    have hc := hcl cp hcp
    obtain ⟨creds, _, hsc⟩ := broker_result env a cp.1 hc
    exact ⟨hc, by rw [hsc]; exact fun hcontra => BedrockClient.noConfusion hcontra⟩
  · intro h
    rw [selectClient_local env agent.account_id h] at htr hcl
    refine ⟨htr, fun cp hcp => ?_⟩
    have := hcl cp hcp
    exact (Except.ok.injEq _ _ ▸ this).symm

/-- C1 witness: dispatching the documented cross-account record through an
oracle that succeeds calls the broker once and invokes with the broker's
session client. -/
theorem dispatch_routing_witness :
    truthy crowleyAgent.alias_id = true ∧
    (invoke_bedrock_agent crossEnv crowleyAgent "hi" "s1").2.assumeRoleCalls =
      [brokerRequest "152864141302"] ∧
    (get_cross_account_bedrock_client crossEnv "152864141302").1 =
      .ok (BedrockClient.sessionClient testCreds) ∧
    BedrockClient.sessionClient testCreds ≠ BedrockClient.localClient := by
  have h := (dispatch_routing crossEnv crowleyAgent "hi" "s1" (by decide)).1
    "152864141302" rfl (by decide) (by decide)
  have hm := h.2 (BedrockClient.sessionClient testCreds,
    { agentId := some "PEGHWIVI5Y", agentAliasId := some "IO1GTTHP0M"
      sessionId := "s1", inputText := "hi" }) (by decide)
  exact ⟨by decide, h.1, hm.1, hm.2⟩

/-- C2 counterexample: when the verified identity resolves to the local
account instead of the target, `get_cross_account_bedrock_client` fails with
the generic `Exception("Expected account ..., got ...")`, which is not the
spec's `AuthError("isolation-failure")` descriptor. -/
theorem acquire_mismatch_not_isolation_failure :
    (get_cross_account_bedrock_client leakEnv "152864141302").1 =
      .error (.exception "Expected account 152864141302, got 843074507558") ∧
    (get_cross_account_bedrock_client leakEnv "152864141302").1 ≠
      .error (.authError "isolation-failure") := by decide

/-- C2 amended: when the post-assumption identity verification resolves to an
account different from the requested target, `get_cross_account_bedrock_client`
fails — returning no client — by raising the generic
`Exception(f"Expected account {account_id}, got {identity['Account']}")`
rather than a typed `AuthError("isolation-failure")`. -/
theorem acquire_mismatch_raises_generic_exception (env : AwsEnv) (aid : String)
    (creds : Credentials)
    (h1 : env.assumeRole (brokerRequest aid) = .ok creds)
    (h2 : env.callerIdentityAccount creds ≠ aid) :
    (get_cross_account_bedrock_client env aid).1 =
      .error (.exception ("Expected account " ++ aid ++ ", got " ++
        env.callerIdentityAccount creds)) := by
  simp [get_cross_account_bedrock_client, h1, h2]

/-- C2 witness: concrete identity-mismatch run in which stale local
credentials leak through. -/
theorem acquire_mismatch_raises_generic_exception_witness :
    leakEnv.assumeRole (brokerRequest "152864141302") = .ok testCreds ∧
    leakEnv.callerIdentityAccount testCreds ≠ "152864141302" ∧
    (get_cross_account_bedrock_client leakEnv "152864141302").1 =
      .error (.exception ("Expected account " ++ "152864141302" ++ ", got " ++
        leakEnv.callerIdentityAccount testCreds)) :=
  ⟨rfl, by decide,
    acquire_mismatch_raises_generic_exception leakEnv "152864141302" testCreds rfl (by decide)⟩

/-- C3 counterexample: a dispatch whose stream yields zero chunks and a
dispatch whose single chunk decodes to the empty string return the very same
plain string "No response from agent.", so the "no response" sentinel is not
distinguishable from the empty-decoding case. -/
theorem no_response_sentinel_indistinguishable :
    (invoke_bedrock_agent emptyStreamEnv localAgent "hi" "s1").1 =
      .ok "No response from agent." ∧
    (invoke_bedrock_agent blankChunkEnv localAgent "hi" "s1").1 =
      .ok "No response from agent." ∧
    (invoke_bedrock_agent emptyStreamEnv localAgent "hi" "s1").1 =
      (invoke_bedrock_agent blankChunkEnv localAgent "hi" "s1").1 := by decide

/-- C3 amended: a dispatch whose stream yields zero chunks returns the plain
string "No response from agent." rather than an empty-string success, but the
same string is returned when the chunks decode to the empty string, so the two
cases are not distinguishable by the caller. -/
theorem empty_stream_yields_sentinel (env1 env2 : AwsEnv) (agent : AgentRecord)
    (user sid : String) (c1 c2 : BedrockClient) (l1 l2 : List AssumeRoleRequest)
    (halias : truthy agent.alias_id = true)
    (hs1 : selectClient env1 agent.account_id = (.ok c1, l1))
    (hs2 : selectClient env2 agent.account_id = (.ok c2, l2))
    (hi1 : env1.invokeAgent c1
      { agentId := agent.agent_id, agentAliasId := agent.alias_id
        sessionId := sid, inputText := user } = .ok [])
    (hi2 : env2.invokeAgent c2
      { agentId := agent.agent_id, agentAliasId := agent.alias_id
        sessionId := sid, inputText := user } = .ok [StreamEvent.chunkBytes []]) :
    (invoke_bedrock_agent env1 agent user sid).1 = .ok "No response from agent." ∧
    (invoke_bedrock_agent env2 agent user sid).1 =
      (invoke_bedrock_agent env1 agent user sid).1 := by
  have hsp1 : specDecodedConcat [] = some "" := rfl
  have hsp2 : specDecodedConcat [StreamEvent.chunkBytes []] = some "" := rfl
  have h1 : (invoke_bedrock_agent env1 agent user sid).1 = .ok "No response from agent." := by
    simp [invoke_bedrock_agent, halias, hs1, hi1, processCompletion_spec, hsp1]
  have h2 : (invoke_bedrock_agent env2 agent user sid).1 = .ok "No response from agent." := by
    simp [invoke_bedrock_agent, halias, hs2, hi2, processCompletion_spec, hsp2]
  exact ⟨h1, h2.trans h1.symm⟩

/-- C3 witness: concrete zero-chunk and blank-chunk dispatches through the
local route. -/
theorem empty_stream_yields_sentinel_witness :
    truthy localAgent.alias_id = true ∧
    (invoke_bedrock_agent emptyStreamEnv localAgent "hi" "s1").1 =
      .ok "No response from agent." ∧
    (invoke_bedrock_agent blankChunkEnv localAgent "hi" "s1").1 =
      (invoke_bedrock_agent emptyStreamEnv localAgent "hi" "s1").1 := by
  have h := empty_stream_yields_sentinel emptyStreamEnv blankChunkEnv localAgent
    "hi" "s1" BedrockClient.localClient BedrockClient.localClient [] []
    (by decide) rfl rfl rfl rfl
  exact ⟨by decide, h.1, h.2⟩

/-- C4 counterexample: the role ARN presented to `assume_role` is the same
fixed string for two different target accounts — it is not parameterized by
the requested `target_account_id` (the acquisition for target 999999999999
presents an ARN naming account 152864141302). -/
theorem role_arn_constant_across_targets :
    (get_cross_account_bedrock_client crossEnv "999999999999").2.map
        AssumeRoleRequest.RoleArn =
      (get_cross_account_bedrock_client crossEnv "152864141302").2.map
        AssumeRoleRequest.RoleArn ∧
    (get_cross_account_bedrock_client crossEnv "999999999999").2.map
        AssumeRoleRequest.RoleArn =
      ["arn:aws:iam::152864141302:role/cmcCrossAccountBedrockInvokeRole"] := by decide

/-- C4 amended: every cross-account acquisition presents the fixed constant
role ARN `CROSS_ACCOUNT_ROLE_ARN` (independent of the requested target
account; only the session name `HubSession-{account_id}` varies), together
with the pre-shared external identifier `CROSS_ACCOUNT_EXTERNAL_ID` as the
anti-confused-deputy check. -/
theorem assume_role_request_shape (env : AwsEnv) (aid : String) :
    (get_cross_account_bedrock_client env aid).2.map AssumeRoleRequest.RoleArn =
      [CROSS_ACCOUNT_ROLE_ARN] ∧
    (get_cross_account_bedrock_client env aid).2.map AssumeRoleRequest.ExternalId =
      [CROSS_ACCOUNT_EXTERNAL_ID] ∧
    (get_cross_account_bedrock_client env aid).2.map AssumeRoleRequest.RoleSessionName =
      ["HubSession-" ++ aid] := by
  rw [broker_trace env aid]
  exact ⟨rfl, rfl, rfl⟩

/-- C5 counterexample: a chunk whose bytes are not valid UTF-8 makes the
dispatch fail with a propagated `UnicodeDecodeError`, not with the spec's
`InvocationError("decode-failure")` descriptor. -/
theorem decode_failure_not_invocation_error :
    (invoke_bedrock_agent badBytesEnv localAgent "hi" "s1").1 =
      .error PyErr.unicodeDecodeError ∧
    resultInvocationKind (invoke_bedrock_agent badBytesEnv localAgent "hi" "s1").1 = none := by
  decide

/-- C5 amended: a chunk whose byte fragment fails to decode is fatal for the
invocation — the dispatch returns the propagated `UnicodeDecodeError` (no
partial text is returned as a success and the chunk is not skipped), rather
than the descriptor `InvocationError("decode-failure")`. -/
theorem decode_failure_raises_unicode_error (env : AwsEnv) (agent : AgentRecord)
    (user sid : String) (c : BedrockClient) (l : List AssumeRoleRequest)
    (events : List StreamEvent)
    (halias : truthy agent.alias_id = true)
    (hsel : selectClient env agent.account_id = (.ok c, l))
    (hinv : env.invokeAgent c
      { agentId := agent.agent_id, agentAliasId := agent.alias_id
        sessionId := sid, inputText := user } = .ok events)
    (hbad : specDecodedConcat events = none) :
    (invoke_bedrock_agent env agent user sid).1 = .error PyErr.unicodeDecodeError := by
  simp [invoke_bedrock_agent, halias, hsel, hinv, processCompletion_spec, hbad]

/-- C5 witness: concrete dispatch whose single chunk is the invalid byte 0xFF. -/
theorem decode_failure_raises_unicode_error_witness :
    specDecodedConcat [StreamEvent.chunkBytes [255]] = none ∧
    (invoke_bedrock_agent badBytesEnv localAgent "hi" "s1").1 =
      .error PyErr.unicodeDecodeError :=
  ⟨by decide,
    decode_failure_raises_unicode_error badBytesEnv localAgent "hi" "s1"
      BedrockClient.localClient [] [StreamEvent.chunkBytes [255]]
      (by decide) rfl rfl (by decide)⟩

/-- C6 counterexample: for a record whose `alias_id` is the empty string, the
dispatch returns the plain success string
"Error: Missing alias_id for agent PEGHWIVI5Y" — not an error descriptor such
as `InvocationError("missing-alias")` — while performing no broker call and no
invocation. -/
theorem missing_alias_plain_success_string :
    invoke_bedrock_agent crossEnv emptyAliasAgent "hi" "s1" =
      (.ok "Error: Missing alias_id for agent PEGHWIVI5Y",
        { assumeRoleCalls := [], invokeCalls := [] }) ∧
    resultInvocationKind (invoke_bedrock_agent crossEnv emptyAliasAgent "hi" "s1").1 =
      none := by decide

/-- C6 amended: for every record whose `alias_id` is falsy (absent or empty),
the dispatch returns early with the plain string
`f"Error: Missing alias_id for agent {agent_id}"` as an ordinary success-typed
result — not an error descriptor — and performs no broker call and no agent
invocation. -/
theorem missing_alias_early_return (env : AwsEnv) (agent : AgentRecord)
    (user sid : String) (h : truthy agent.alias_id = false) :
    invoke_bedrock_agent env agent user sid =
      (.ok ("Error: Missing alias_id for agent " ++ pyStr agent.agent_id),
        { assumeRoleCalls := [], invokeCalls := [] }) := by
  simp [invoke_bedrock_agent, h]

/-- C6 witness: concrete empty-alias record. -/
theorem missing_alias_early_return_witness :
    truthy emptyAliasAgent.alias_id = false ∧
    invoke_bedrock_agent crossEnv emptyAliasAgent "hi" "s1" =
      (.ok ("Error: Missing alias_id for agent " ++ pyStr emptyAliasAgent.agent_id),
        { assumeRoleCalls := [], invokeCalls := [] }) :=
  ⟨by decide, missing_alias_early_return crossEnv emptyAliasAgent "hi" "s1" (by decide)⟩

set_option maxRecDepth 4000 in
/-- C7 counterexample: when the hub call does not complete within the
120000 ms ceiling and the AbortController fires, the user receives a
`role: "error"` message "Request timed out - document processing is taking too
long", not the distinguished "still processing" assistant response. -/
theorem timeout_yields_error_message :
    handleHubCall HubFetchOutcome.timedOut =
      { message := { role := "error"
                     content := "Request timed out - document processing is taking too long" }
        aborted := true } ∧
    (handleHubCall HubFetchOutcome.timedOut).message.role ≠ "assistant" ∧
    (handleHubCall HubFetchOutcome.timedOut).message.content ≠ stillProcessingMessage := by
  refine ⟨rfl, by decide, ?_⟩
  intro h
  exact absurd (congrArg String.length h) (by decide)

/-- C7 amended: on expiry of the 120000 ms ceiling the in-flight hub call is
cancelled via the AbortController, but the caller then receives an error
message ("Request timed out - document processing is taking too long"); the
distinguished "still processing" assistant response is produced only when the
server itself answers with HTTP status 504. -/
theorem timeout_aborts_with_error (rawText : String) (body : HubBody) :
    HUB_TIMEOUT_MS = 120000 ∧
    (handleHubCall HubFetchOutcome.timedOut).aborted = true ∧
    (handleHubCall HubFetchOutcome.timedOut).message =
      { role := "error"
        content := "Request timed out - document processing is taking too long" } ∧
    handleHubCall (HubFetchOutcome.completed false 504 rawText body) =
      { message := { role := "assistant", content := stillProcessingMessage }
        aborted := false } := by
  exact ⟨rfl, rfl, rfl, by simp [handleHubCall]⟩

/-- C8 counterexample: for the empty chunk sequence the spec's concatenation
of decoded fragments is `""`, yet the dispatcher returns the string
"No response from agent.", so the reassembled text does not equal the
concatenation for every finite chunk sequence. -/
theorem empty_chunks_not_empty_string :
    specDecodedConcat ([] : List StreamEvent) = some "" ∧
    (invoke_bedrock_agent emptyStreamEnv localAgent "hi" "s1").1 =
      .ok "No response from agent." ∧
    (invoke_bedrock_agent emptyStreamEnv localAgent "hi" "s1").1 ≠ .ok "" := by decide

/-- C8 amended: for every finite sequence of response chunks whose decoded
fragments concatenate (in arrival order) to a non-empty string, the dispatch
returns exactly that concatenation; in particular the chunks
["Hel", "lo, ", "world"] reassemble to exactly "Hello, world".  (The empty
concatenation is instead replaced by the "No response from agent." string.) -/
theorem reassembly_is_concatenation (env : AwsEnv) (agent : AgentRecord)
    (user sid : String) (c : BedrockClient) (l : List AssumeRoleRequest)
    (events : List StreamEvent) (s : String)
    (halias : truthy agent.alias_id = true)
    (hsel : selectClient env agent.account_id = (.ok c, l))
    (hinv : env.invokeAgent c
      { agentId := agent.agent_id, agentAliasId := agent.alias_id
        sessionId := sid, inputText := user } = .ok events)
    (hconcat : specDecodedConcat events = some s) (hne : s ≠ "") :
    (invoke_bedrock_agent env agent user sid).1 = .ok s := by
  simp [invoke_bedrock_agent, halias, hsel, hinv, processCompletion_spec, hconcat, hne]

/-- C8 witness: the chunks "Hel", "lo, ", "world" reassemble to exactly
"Hello, world". -/
theorem reassembly_is_concatenation_witness :
    specDecodedConcat
        [StreamEvent.chunkBytes (strBytes "Hel"),
         StreamEvent.chunkBytes (strBytes "lo, "),
         StreamEvent.chunkBytes (strBytes "world")] = some "Hello, world" ∧
    (invoke_bedrock_agent helloEnv localAgent "query" "s1").1 = .ok "Hello, world" :=
  ⟨by decide,
    reassembly_is_concatenation helloEnv localAgent "query" "s1"
      BedrockClient.localClient []
      [StreamEvent.chunkBytes (strBytes "Hel"),
       StreamEvent.chunkBytes (strBytes "lo, "),
       StreamEvent.chunkBytes (strBytes "world")] "Hello, world"
      (by decide) rfl rfl (by decide) (by decide)⟩

/-- C9: every call to `get_cross_account_bedrock_client` performs exactly one
fresh `assume_role` call — no credential cache is consulted and no retry is
performed (the trace is the single request even when the oracle denies the
assumption) — and any client it returns is bound to exactly the credential set
that single call produced, never shared from elsewhere. -/
theorem acquire_single_fresh_assumption (env : AwsEnv) (aid : String) :
    (get_cross_account_bedrock_client env aid).2 = [brokerRequest aid] ∧
    ∀ c, (get_cross_account_bedrock_client env aid).1 = .ok c →
      c.boundCreds = (env.assumeRole (brokerRequest aid)).toOption := by
  refine ⟨broker_trace env aid, fun c hc => ?_⟩
  obtain ⟨creds, hA, hC⟩ := broker_result env aid c hc
  rw [hC, hA]
  rfl

/-- C9 witness: concrete successful acquisition for the documented target
account. -/
theorem acquire_single_fresh_assumption_witness :
    (get_cross_account_bedrock_client crossEnv "152864141302").2 =
      [brokerRequest "152864141302"] ∧
    (BedrockClient.sessionClient testCreds).boundCreds =
      (crossEnv.assumeRole (brokerRequest "152864141302")).toOption := by
  have h := acquire_single_fresh_assumption crossEnv "152864141302"
  exact ⟨h.1, h.2 (BedrockClient.sessionClient testCreds) (by decide)⟩

/-- C10: every POST to the upload-url route presigns a PUT that expires in
exactly 1500 seconds, with object key `sourceDocs/` followed by the
client-supplied filename embedded verbatim and unvalidated, and returns
`s3Path` equal to `"s3://" + bucket + "/sourceDocs/" + filename`; a filename
containing "/" or ".." therefore changes the resulting object path, as the
concrete filename "../escape.pdf" shows. -/
theorem upload_url_post_contract (bucket : String) (req : UploadUrlRequest) :
    (uploadUrlPOST bucket req).presign.expiresIn = 1500 ∧
    (uploadUrlPOST bucket req).presign.key = "sourceDocs/" ++ req.filename ∧
    (uploadUrlPOST bucket req).s3Path = "s3://" ++ bucket ++ "/sourceDocs/" ++ req.filename ∧
    (uploadUrlPOST "docs"
        { filename := "../escape.pdf", contentType := "application/pdf" }).presign.key =
      "sourceDocs/../escape.pdf" := by
  refine ⟨rfl, rfl, ?_, rfl⟩
  show "s3://" ++ bucket ++ "/" ++ ("sourceDocs/" ++ req.filename) =
    "s3://" ++ bucket ++ "/sourceDocs/" ++ req.filename
  rw [String.append_assoc ("s3://" ++ bucket) "/" ("sourceDocs/" ++ req.filename),
    ← String.append_assoc "/" "sourceDocs/" req.filename,
    ← String.append_assoc ("s3://" ++ bucket) ("/" ++ "sourceDocs/") req.filename]
  rfl
